import Mathlib

/-!
Verification development for the JSON Template Combiner repository.

The repository's algorithmic core lives in src/main.py (TemplateComparator,
quality scoring, duplicate handling inside JSONTemplateApp) and src/utils.py
(TemplateConverter, DockerComposeConverter).  This file gives a shallow
embedding of those functions and settles the frozen claims about them.

Conventions:
* Python dict-shaped template records are modelled by the structure
  `Template` below, with `Option` distinguishing an absent key from a
  present-but-falsy value (e.g. `none` = no key, `some ""` = empty string).
* Machine floats of the similarity computation are modelled by `Rat`
  (all quantities involved are exact small rationals).
* `difflib.SequenceMatcher(None, a, b).ratio()` is modelled below from the
  documented semantics of the Python standard library: the total size of the
  matching blocks obtained by repeatedly taking the longest matching block
  (ties: smallest start in `a`, then smallest start in `b`) and recursing on
  both sides, scaled by `2 / (len a + len b)`.  The inputs this repository
  compares are short strings, for which the autojunk heuristic of
  SequenceMatcher is inert, so it is not modelled.
-/

/-- Length of the common prefix of two character lists. -/
def commonPrefixLen : List Char → List Char → Nat
  | a :: as, b :: bs => if a = b then commonPrefixLen as bs + 1 else 0
  | _, _ => 0

theorem commonPrefixLen_self : ∀ l : List Char, commonPrefixLen l l = l.length := by
  intro l
  induction l with
  | nil => rfl
  | cons a as ih => simp [commonPrefixLen, ih]

theorem commonPrefixLen_le_left : ∀ a b : List Char, commonPrefixLen a b ≤ a.length := by
  intro a
  induction a with
  | nil => intro b; cases b <;> simp [commonPrefixLen]
  | cons x xs ih =>
    intro b
    cases b with
    | nil => simp [commonPrefixLen]
    | cons y ys =>
      simp only [commonPrefixLen]
      split
      · have := ih ys
        simp only [List.length_cons]
        omega
      · simp

/-- All candidate matching-block lengths between windows of `a` and `b`:
for every pair of start offsets, the longest block starting there. -/
def candidateLens (a b : List Char) : List Nat :=
  (List.range (a.length + 1)).flatMap fun i =>
    (List.range (b.length + 1)).map fun j => commonPrefixLen (a.drop i) (b.drop j)

/-- Length of the longest matching block between `a` and `b`
(SequenceMatcher.find_longest_match, k component). -/
def bestLen (a b : List Char) : Nat := (candidateLens a b).foldr max 0

theorem le_foldr_max {l : List Nat} {x : Nat} (h : x ∈ l) : x ≤ l.foldr max 0 := by
  induction l with
  | nil => cases h
  | cons a as ih =>
    rw [List.mem_cons] at h
    rcases h with rfl | h
    · exact le_max_left _ _
    · exact le_trans (ih h) (le_max_right _ _)

theorem foldr_max_le {l : List Nat} {n : Nat} (h : ∀ x ∈ l, x ≤ n) : l.foldr max 0 ≤ n := by
  induction l with
  | nil => simp
  | cons a as ih =>
    simp only [List.foldr]
    have h1 := h a (by simp)
    have h2 := ih fun x hx => h x (by simp [hx])
    omega

theorem bestLen_self (l : List Char) : bestLen l l = l.length := by
  apply le_antisymm
  · apply foldr_max_le
    intro x hx
    simp only [candidateLens, List.mem_flatMap, List.mem_map] at hx
    obtain ⟨i, _, j, _, rfl⟩ := hx
    calc commonPrefixLen (l.drop i) (l.drop j) ≤ (l.drop i).length := commonPrefixLen_le_left _ _
    _ ≤ l.length := by simp
  · have hmem : commonPrefixLen (l.drop 0) (l.drop 0) ∈ candidateLens l l := by
      simp only [candidateLens, List.mem_flatMap, List.mem_map]
      exact ⟨0, by simp, 0, by simp, rfl⟩
    have := le_foldr_max hmem
    simpa [commonPrefixLen_self] using this

/-- Start offset in `a` of the longest matching block
(smallest such offset, as documented for find_longest_match). -/
def bestStartA (a b : List Char) : Nat :=
  (((List.range (a.length + 1)).find? fun i =>
    (List.range (b.length + 1)).any fun j =>
      commonPrefixLen (a.drop i) (b.drop j) == bestLen a b)).getD 0

/-- Start offset in `b` of the longest matching block
(smallest offset compatible with `bestStartA`). -/
def bestStartB (a b : List Char) : Nat :=
  (((List.range (b.length + 1)).find? fun j =>
    commonPrefixLen (a.drop (bestStartA a b)) (b.drop j) == bestLen a b)).getD 0

theorem bestStartA_self (l : List Char) : bestStartA l l = 0 := by
  unfold bestStartA
  rw [List.range_succ_eq_map]
  have h0 : ((0 :: (List.range l.length).map Nat.succ).any fun j =>
      commonPrefixLen (l.drop 0) (l.drop j) == bestLen l l) = true := by
    rw [List.any_eq_true]
    exact ⟨0, by simp, by simp [commonPrefixLen_self, bestLen_self]⟩
  simp only [List.find?, h0]
  rfl

theorem bestStartB_self (l : List Char) : bestStartB l l = 0 := by
  unfold bestStartB
  rw [List.range_succ_eq_map]
  have h0 : (commonPrefixLen (l.drop (bestStartA l l)) (l.drop 0) == bestLen l l) = true := by
    simp [bestStartA_self, commonPrefixLen_self, bestLen_self]
  simp only [List.find?, h0]
  rfl

/-- Total size of all matching blocks (the `matches` quantity of
SequenceMatcher.ratio): take the longest matching block, recurse on the
parts before and on the parts after it.  Structural recursion on a fuel
argument; `a.length + b.length` units of fuel always suffice because each
recursive window is strictly smaller in total length. -/
def matchTotalFuel : Nat → List Char → List Char → Nat
  | 0, _, _ => 0
  | fuel + 1, a, b =>
    let k := bestLen a b
    if k = 0 then 0
    else
      let i := bestStartA a b
      let j := bestStartB a b
      k + matchTotalFuel fuel (a.take i) (b.take j)
        + matchTotalFuel fuel (a.drop (i + k)) (b.drop (j + k))

def matchTotal (a b : List Char) : Nat := matchTotalFuel (a.length + b.length) a b

theorem matchTotalFuel_nil : ∀ fuel, matchTotalFuel fuel [] [] = 0 := by
  intro fuel
  cases fuel with
  | zero => rfl
  | succ f => rfl

theorem matchTotal_self (l : List Char) : matchTotal l l = l.length := by
  cases l with
  | nil => rfl
  | cons c cs =>
    have hlen : (c :: cs).length + (c :: cs).length = (cs.length + cs.length + 1) + 1 := by
      simp; omega
    unfold matchTotal
    rw [hlen]
    show (let k := bestLen (c :: cs) (c :: cs);
      if k = 0 then 0
      else
        let i := bestStartA (c :: cs) (c :: cs)
        let j := bestStartB (c :: cs) (c :: cs)
        k + matchTotalFuel (cs.length + cs.length + 1) ((c :: cs).take i) ((c :: cs).take j)
          + matchTotalFuel (cs.length + cs.length + 1) ((c :: cs).drop (i + k)) ((c :: cs).drop (j + k))) =
      (c :: cs).length
    simp only [bestLen_self, bestStartA_self, bestStartB_self]
    rw [if_neg (by simp)]
    simp only [List.take_zero, Nat.zero_add, List.drop_length, matchTotalFuel_nil]
    simp

/-- SequenceMatcher.ratio over two character lists:
`2 * matches / total length`, and `1.0` for two empty sequences
(difflib._calculate_ratio). -/
def ratioValue (a b : List Char) : Rat :=
  if a.length + b.length = 0 then 1
  else 2 * (matchTotal a b : Rat) / ((a.length : Rat) + (b.length : Rat))

theorem ratioValue_self (l : List Char) : ratioValue l l = 1 := by
  unfold ratioValue
  rcases Nat.eq_zero_or_pos l.length with h | h
  · simp [h]
  · rw [if_neg (by omega)]
    rw [matchTotal_self]
    have hne : (l.length : Rat) ≠ 0 := by
      exact_mod_cast Nat.pos_iff_ne_zero.mp h
    field_simp
    ring

/-- Python str.lower, modelled character-wise (ASCII). -/
def pyLower (s : String) : String := ⟨s.data.map Char.toLower⟩

/-- TemplateComparator._text_similarity (src/main.py lines 63-71):
1.0 if both strings are empty, 0.0 if exactly one is empty, otherwise the
SequenceMatcher ratio of the lower-cased strings. -/
def text_similarity (text1 text2 : String) : Rat :=
  if text1 = "" ∧ text2 = "" then 1
  else if text1 = "" ∨ text2 = "" then 0
  else ratioValue (pyLower text1).data (pyLower text2).data

theorem text_similarity_self (s : String) : text_similarity s s = 1 := by
  unfold text_similarity
  by_cases h : s = ""
  · simp [h]
  · rw [if_neg (by simp [h]), if_neg (by simp [h]), ratioValue_self]

/-!
## Canonical template records

The deduplication engine of src/main.py operates on Python dicts.  The
fields it reads are modelled as a structure; `none` models an absent key,
`some v` a present key.  Python truthiness of a string value is
`some s` with `s` non-empty.  Entries of `env`, `ports` and `volumes` are
modelled with the shapes the pipeline produces (env entries as dicts with
optional `name`/`default`; port entries as one-entry label-to-spec dicts;
volume entries as `container`/`bind` dicts).  The transient Python key
`_source` is the field `source`.
-/

structure EnvVar where
  name : Option String
  default : Option String
deriving DecidableEq, Repr

structure PortEntry where
  pairs : List (String × String)
deriving DecidableEq, Repr

structure VolumeEntry where
  container : Option String
  bind : Option String
deriving DecidableEq, Repr

structure Repository where
  url : Option String
  stackfile : Option String
deriving DecidableEq, Repr

structure Template where
  title : Option String
  description : Option String
  image : Option String
  logo : Option String
  platform : Option String
  categories : Option (List String)
  env : Option (List EnvVar)
  ports : Option (List PortEntry)
  volumes : Option (List VolumeEntry)
  repository : Option Repository
  restart_policy : Option String
  note : Option String
  source : Option String
deriving DecidableEq, Repr

/-- Python truthiness of an optional string value: key present and non-empty. -/
def strTruthy (o : Option String) : Bool := o.getD "" ≠ ""

/-- Python truthiness of a repository dict: at least one key present. -/
def repoTruthy (r : Repository) : Bool := r.url.isSome || r.stackfile.isSome

/-- Python substring containment: needle occurs inside haystack. -/
def pyContains (haystack needle : String) : Bool :=
  (List.range (haystack.data.length + 1)).any fun i =>
    needle.data.isPrefixOf (haystack.data.drop i)

/-- TemplateComparator._compare_env_vars (src/main.py lines 73-91):
1.0 when both lists are empty, 0.0 when exactly one is, otherwise the
Jaccard similarity of the sets of env-entry names (all entries the pipeline
produces are dicts, so the isinstance filter of the source is the
identity). -/
def compare_env_vars (env1 env2 : List EnvVar) : Rat :=
  if env1 = [] ∧ env2 = [] then 1
  else if env1 = [] ∨ env2 = [] then 0
  else
    let env1_names := (env1.map fun v => v.name.getD "").toFinset
    let env2_names := (env2.map fun v => v.name.getD "").toFinset
    if env1_names = ∅ ∧ env2_names = ∅ then 1
    else if 0 < (env1_names ∪ env2_names).card then
      ((env1_names ∩ env2_names).card : Rat) / ((env1_names ∪ env2_names).card : Rat)
    else 0

theorem compare_env_vars_self (e : List EnvVar) : compare_env_vars e e = 1 := by
  unfold compare_env_vars
  by_cases h : e = []
  · simp [h]
  · rw [if_neg (by simp [h]), if_neg (by simp [h])]
    have hne : ((e.map fun v => v.name.getD "").toFinset : Finset String) ≠ ∅ := by
      rcases e with _ | ⟨v, rest⟩
      · exact absurd rfl h
      · simp only [List.map_cons, List.toFinset_cons]
        exact Finset.insert_ne_empty _ _
    rw [if_neg (by simp [hne])]
    have hcard : 0 < ((e.map fun v => v.name.getD "").toFinset : Finset String).card :=
      Finset.card_pos.mpr (Finset.nonempty_iff_ne_empty.mpr hne)
    rw [Finset.inter_self, Finset.union_self, if_pos (by simpa using hcard)]
    have : (((e.map fun v => v.name.getD "").toFinset.card : Rat)) ≠ 0 := by
      exact_mod_cast Nat.pos_iff_ne_zero.mp hcard
    field_simp

/-- TemplateComparator.calculate_similarity (src/main.py lines 27-61):
weighted sum of title, image, description, stackfile and env similarities. -/
def calculate_similarity (template1 template2 : Template) : Rat :=
  let title_sim := text_similarity (template1.title.getD "") (template2.title.getD "")
  let image_sim := text_similarity (template1.image.getD "") (template2.image.getD "")
  let desc_sim := text_similarity (template1.description.getD "") (template2.description.getD "")
  let compose_sim : Rat :=
    match template1.repository, template2.repository with
    | some r1, some r2 =>
      match r1.stackfile, r2.stackfile with
      | some s1, some s2 => text_similarity s1 s2
      | _, _ => 0
    | _, _ => 0
  let env_sim := compare_env_vars (template1.env.getD []) (template2.env.getD [])
  title_sim * (3/10) + image_sim * (1/4) + desc_sim * (1/5)
    + compose_sim * (3/20) + env_sim * (1/10)

/-- TemplateComparator.detect_architecture (src/main.py lines 93-121). -/
def detect_architecture (template : Template) : String :=
  let platform := pyLower (template.platform.getD "")
  if platform ≠ "" then platform
  else
    let image := pyLower (template.image.getD "")
    if pyContains image "arm64" || pyContains image "aarch64" then "arm64"
    else if pyContains image "arm" then "arm"
    else if pyContains image "amd64" || pyContains image "x86_64" then "amd64"
    else if pyContains image "386" || pyContains image "i386" then "386"
    else
      match template.repository with
      | some repo =>
        let stackfile := pyLower (repo.stackfile.getD "")
        if pyContains stackfile "arm64" then "arm64"
        else if pyContains stackfile "amd64" then "amd64"
        else "linux"
      | none => "linux"

/-- JSONTemplateApp.calculate_template_score (src/main.py lines 636-663),
written as the same sequence of conditional increments the source performs. -/
def calculate_template_score (template : Template) : Int :=
  let score : Int := 0
  let score := score + (if strTruthy template.title then 10 else 0)
  let score := score + (if strTruthy template.description then 8 else 0)
  let score := score + (if strTruthy template.image then 10 else 0)
  let score := score + (if template.categories.getD [] ≠ [] then 5 else 0)
  let score := score + (if strTruthy template.platform then 3 else 0)
  let score := score + (if strTruthy template.logo then 2 else 0)
  let score := score + (if template.env.getD [] ≠ [] then (template.env.getD []).length else 0)
  let score := score + (if template.ports.getD [] ≠ [] then (template.ports.getD []).length * 2 else 0)
  let score := score + (if template.volumes.getD [] ≠ [] then (template.volumes.getD []).length * 2 else 0)
  let score := score +
    (match template.repository with
     | some repo =>
       if repoTruthy repo then
         (if strTruthy repo.stackfile then 15 else 0) + (if strTruthy repo.url then 5 else 0)
       else 0
     | none => 0)
  let score := score + (if strTruthy template.image then 0 else -20)
  let score := score + (if strTruthy template.description then 0 else -10)
  score

/-- JSONTemplateApp.is_better_template (src/main.py lines 630-634). -/
def is_better_template (template1 template2 : Template) : Bool :=
  calculate_template_score template2 < calculate_template_score template1

/-- JSONTemplateApp.clean_template (src/main.py lines 665-673):
copy of the record with the internal _source key removed. -/
def clean_template (template : Template) : Template := { template with source := none }

/-- One iteration of the outer loop of handle_duplicate_group
(src/main.py lines 583-609): scan unique_templates for the first record at
least 0.7-similar to the current one; on a hit either record architecture
variants (first write per key wins) or keep the better-scoring record;
otherwise append the current record. -/
def processGroupMember (state : List Template × List (String × Template)) (template : Template) :
    List Template × List (String × Template) :=
  let unique_templates := state.1
  let architecture_variants := state.2
  let arch := detect_architecture template
  match unique_templates.find? (fun existing =>
      decide ((7 : Rat)/10 ≤ calculate_similarity template existing)) with
  | none => (unique_templates ++ [template], architecture_variants)
  | some existing =>
    let existing_arch := detect_architecture existing
    if arch ≠ existing_arch then
      let v1 := if architecture_variants.any (fun p => p.1 = arch) then architecture_variants
                else architecture_variants ++ [(arch, template)]
      let v2 := if v1.any (fun p => p.1 = existing_arch) then v1
                else v1 ++ [(existing_arch, existing)]
      (unique_templates, v2)
    else if is_better_template template existing then
      (unique_templates.set (unique_templates.indexOf existing) template, architecture_variants)
    else (unique_templates, architecture_variants)

/-- Remove the first element equal (Python ==, i.e. value equality) to `t`. -/
def removeFirstEq (t : Template) : List Template → List Template
  | [] => []
  | w :: rest => if w = t then rest else w :: removeFirstEq t rest

/-- The removal loop of handle_duplicate_group (src/main.py lines 618-621):
for every template recorded in architecture_variants, if a record equal to
it is present in unique_templates, remove the first such record
(Python list membership and list.remove compare with ==). -/
def removeVariantsLoop (architecture_variants : List (String × Template))
    (unique_templates : List Template) : List Template :=
  architecture_variants.foldl
    (fun u p => if p.2 ∈ u then removeFirstEq p.2 u else u) unique_templates

/-- JSONTemplateApp.handle_duplicate_group (src/main.py lines 575-628). -/
def handle_duplicate_group (title : String) (group : List Template) : List Template :=
  let scanned := group.foldl processGroupMember ([], [])
  let unique_templates := scanned.1
  let architecture_variants := scanned.2
  let variantRecords := architecture_variants.map fun p =>
    { clean_template p.2 with title := some (title ++ "-" ++ p.1) }
  let remaining := removeVariantsLoop architecture_variants unique_templates
  variantRecords ++ remaining.map clean_template

/-- Python str.strip, modelled as trimming whitespace on both ends. -/
def pyStrip (s : String) : String :=
  ⟨((s.data.dropWhile Char.isWhitespace).reverse.dropWhile Char.isWhitespace).reverse⟩

/-- First-seen-order deduplicated list of keys (the iteration order of the
insertion-ordered template_groups dict of the source). -/
def firstSeen : List String → List String
  | [] => []
  | k :: rest => k :: (firstSeen rest).filter (· ≠ k)

/-- JSONTemplateApp.process_duplicate_templates (src/main.py lines 548-573):
group records by stripped title (records with empty stripped title are
dropped), emit singleton groups cleaned, and hand larger groups to
handle_duplicate_group. -/
def process_duplicate_templates (templates : List Template) : List Template :=
  let keyed := templates.filter fun t => pyStrip (t.title.getD "") ≠ ""
  let keys := firstSeen (keyed.map fun t => pyStrip (t.title.getD ""))
  keys.flatMap fun title =>
    let group := keyed.filter fun t => pyStrip (t.title.getD "") = title
    match group with
    | [g] => [clean_template g]
    | g => handle_duplicate_group title g

/-!
## Object identity in the removal loop (claim C3)

Python lists hold object references; `in` and `list.remove` compare with
`==` (value equality on dicts), not with `is` (object identity).  To state
claims about identity versus value equality, templates are paired with a
`Nat` object id: two tagged records model distinct Python objects exactly
when their ids differ.  Value equality (Python `==`) compares only the
`Template` component.
-/

abbrev IdTemplate := Nat × Template

/-- Python list.remove on a list of objects: removes the first element
whose VALUE equals that of `t` (ids, i.e. object identities, are ignored,
because Python remove compares with ==). -/
def removeFirstEqTagged (t : IdTemplate) : List IdTemplate → List IdTemplate
  | [] => []
  | w :: rest => if w.2 = t.2 then rest else w :: removeFirstEqTagged t rest

/-- The removal loop of handle_duplicate_group (src/main.py lines 618-621)
over object-tagged records: membership and removal compare values with
Python ==, never object identities. -/
def removeVariantsLoopTagged (architecture_variants : List (String × IdTemplate))
    (unique_templates : List IdTemplate) : List IdTemplate :=
  architecture_variants.foldl
    (fun u p => if u.any (fun w => w.2 = p.2.2) then removeFirstEqTagged p.2 u else u)
    unique_templates

/-- A record with no keys at all. -/
def blankTemplate : Template :=
  { title := none, description := none, image := none, logo := none, platform := none,
    categories := none, env := none, ports := none, volumes := none, repository := none,
    restart_policy := none, note := none, source := none }

theorem removeFirstEqTagged_proj (t : IdTemplate) :
    ∀ u : List IdTemplate, (removeFirstEqTagged t u).map Prod.snd = removeFirstEq t.2 (u.map Prod.snd) := by
  intro u
  induction u with
  | nil => rfl
  | cons w rest ih =>
    simp only [removeFirstEqTagged, removeFirstEq, List.map_cons]
    by_cases h : w.2 = t.2
    · rw [if_pos h, if_pos h]
    · rw [if_neg h, if_neg h, List.map_cons, ih]

theorem any_snd_eq_mem (x : Template) :
    ∀ u : List IdTemplate, (u.any fun w => w.2 = x) = decide (x ∈ u.map Prod.snd) := by
  intro u
  induction u with
  | nil => rfl
  | cons w rest ih =>
    simp only [List.any_cons, List.map_cons, ih]
    by_cases h : w.2 = x
    · simp [h]
    · simp [h, Ne.symm h]

/-- C3 counterexample: the spec says the removal loop removes a template
recorded in architecture_variants only when the very same object is still
in unique_templates (object identity), and that a distinct but value-equal
record is NOT removed.  The code uses Python == (value equality): with the
variants map holding object 1 and unique_templates holding the distinct but
value-equal object 2, the loop removes object 2, leaving the empty list. -/
theorem claim3_counterexample :
    removeVariantsLoopTagged [("arm64", (1, blankTemplate))] [(2, blankTemplate)] = []
    ∧ (1 : Nat) ≠ 2 := by
  constructor
  · rfl
  · decide

/-- C3 (amended): the removal loop works by Python value equality, removing
for each recorded variants template the first value-equal record of
unique_templates; object identity never plays a role — projecting away the
object ids commutes with the loop, which then agrees with the by-value
removal loop used in the untagged model. -/
theorem claim3_amended_value_removal :
    ∀ (architecture_variants : List (String × IdTemplate)) (unique_templates : List IdTemplate),
    (removeVariantsLoopTagged architecture_variants unique_templates).map Prod.snd =
      removeVariantsLoop (architecture_variants.map fun p => (p.1, p.2.2))
        (unique_templates.map Prod.snd) := by
  intro vs
  induction vs with
  | nil => intro u; rfl
  | cons p rest ih =>
    intro u
    simp only [removeVariantsLoopTagged, removeVariantsLoop, List.map_cons, List.foldl_cons]
    have hstep : ((if u.any (fun w => w.2 = p.2.2) then removeFirstEqTagged p.2 u else u).map Prod.snd)
        = (if p.2.2 ∈ u.map Prod.snd then removeFirstEq p.2.2 (u.map Prod.snd) else u.map Prod.snd) := by
      rw [any_snd_eq_mem]
      by_cases h : p.2.2 ∈ u.map Prod.snd
      · rw [if_pos (by simp [h]), if_pos h, removeFirstEqTagged_proj]
      · rw [if_neg (by simp [h]), if_neg h]
    have := ih (if u.any (fun w => w.2 = p.2.2) then removeFirstEqTagged p.2 u else u)
    rw [show (removeVariantsLoopTagged rest ((if u.any (fun w => w.2 = p.2.2) then removeFirstEqTagged p.2 u else u))) =
      (rest.foldl (fun u p => if u.any (fun w => w.2 = p.2.2) then removeFirstEqTagged p.2 u else u)
        ((if u.any (fun w => w.2 = p.2.2) then removeFirstEqTagged p.2 u else u))) from rfl] at this
    rw [this, hstep]
    rfl

/-- C4 counterexample: an identical record compared with itself does NOT
always yield similarity 1.0.  For a record without a repository field the
stackfile component contributes 0.0 and the total is 0.85. -/
theorem claim4_counterexample :
    calculate_similarity blankTemplate blankTemplate = 17/20
    ∧ blankTemplate.repository = none := by
  refine ⟨?_, rfl⟩
  unfold calculate_similarity
  rw [show blankTemplate.title = none from rfl, show blankTemplate.image = none from rfl,
    show blankTemplate.description = none from rfl, show blankTemplate.repository = none from rfl,
    show blankTemplate.env = none from rfl]
  simp only [Option.getD_none]
  rw [text_similarity_self, compare_env_vars_self]
  norm_num

/-- C4 (amended): similarity of a record with itself is 1.0 exactly when
the record has a repository field carrying a stackfile key; otherwise the
stackfile component is 0.0 and the self-similarity is 0.85. -/
theorem claim4_amended_self_similarity (a : Template) :
    calculate_similarity a a =
      (match a.repository with
       | some r => match r.stackfile with
         | some _ => 1
         | none => 17/20
       | none => 17/20) := by
  unfold calculate_similarity
  rw [text_similarity_self, text_similarity_self, text_similarity_self, compare_env_vars_self]
  cases hrepo : a.repository with
  | none => norm_num
  | some r =>
    cases hsf : r.stackfile with
    | none =>
      simp only [hsf]
      norm_num
    | some s =>
      simp only [hsf]
      rw [text_similarity_self]
      norm_num

/-- The additive quality-score formula exactly as the specification lists
it: base points per present field, per-entry points, stackfile/url points,
and the two absence penalties, with no clamp. -/
def quality_score_formula (t : Template) : Int :=
  (if strTruthy t.title then 10 else 0)
  + (if strTruthy t.description then 8 else 0)
  + (if strTruthy t.image then 10 else 0)
  + (if t.categories.getD [] ≠ [] then 5 else 0)
  + (if strTruthy t.platform then 3 else 0)
  + (if strTruthy t.logo then 2 else 0)
  + (t.env.getD []).length
  + 2 * (t.ports.getD []).length
  + 2 * (t.volumes.getD []).length
  + (if strTruthy (t.repository.bind Repository.stackfile) then 15 else 0)
  + (if strTruthy (t.repository.bind Repository.url) then 5 else 0)
  + (if strTruthy t.image then 0 else -20)
  + (if strTruthy t.description then 0 else -10)

/-- A record with neither image nor description whose score is positive:
the "+15 stackfile, +5 url" and field bonuses outweigh the -30 penalty. -/
def claim7Record : Template :=
  { title := some "a", description := none, image := none, logo := some "l",
    platform := some "p", categories := some ["c"], env := none, ports := none,
    volumes := none, repository := some { url := some "u", stackfile := some "s" },
    restart_policy := none, note := none, source := none }

/-- C7 counterexample: the claim asserts that the score of a template with
neither image nor description is negative.  `claim7Record` has neither, yet
scores 10 (title 10, categories 5, platform 3, logo 2, stackfile 15, url 5,
penalties -30). -/
theorem claim7_counterexample :
    claim7Record.image = none ∧ claim7Record.description = none
    ∧ calculate_template_score claim7Record = 10 := by
  refine ⟨rfl, rfl, ?_⟩
  decide

/-- C7 (amended): the quality score is exactly the additive formula of the
claim, with no floor or ceiling clamp, and the score CAN be negative - a
record with neither image nor description and nothing else scores -30 -
though not every image-less description-less record scores negatively. -/
theorem claim7_amended_score_formula :
    (∀ t : Template, calculate_template_score t = quality_score_formula t)
    ∧ calculate_template_score blankTemplate = -30 := by
  constructor
  · intro t
    have henv : ((if t.env.getD [] ≠ [] then (t.env.getD []).length else 0 : Nat) : Int)
        = ((t.env.getD []).length : Int) := by
      by_cases h : t.env.getD [] = []
      · rw [if_neg (by simp [h]), h]
        rfl
      · rw [if_pos h]
    have hports : ((if t.ports.getD [] ≠ [] then (t.ports.getD []).length * 2 else 0 : Nat) : Int)
        = 2 * ((t.ports.getD []).length : Int) := by
      by_cases h : t.ports.getD [] = []
      · rw [if_neg (by simp [h]), h]
        rfl
      · rw [if_pos h]
        push_cast
        ring
    have hvols : ((if t.volumes.getD [] ≠ [] then (t.volumes.getD []).length * 2 else 0 : Nat) : Int)
        = 2 * ((t.volumes.getD []).length : Int) := by
      by_cases h : t.volumes.getD [] = []
      · rw [if_neg (by simp [h]), h]
        rfl
      · rw [if_pos h]
        push_cast
        ring
    unfold calculate_template_score quality_score_formula
    simp only [henv, hports, hvols]
    cases hr : t.repository with
    | none =>
      simp only [Option.none_bind]
      simp [strTruthy]
    | some repo =>
      simp only [Option.some_bind]
      by_cases ht : repoTruthy repo = true
      · simp only [if_pos ht]
        ring
      · simp only [if_neg ht]
        have hu : repo.url = none := by
          cases h : repo.url with
          | none => rfl
          | some u => exact absurd (by unfold repoTruthy; rw [h]; rfl) ht
        have hs : repo.stackfile = none := by
          cases h : repo.stackfile with
          | none => rfl
          | some s => exact absurd (by unfold repoTruthy; rw [h]; simp) ht
        simp only [hu, hs]
        simp [strTruthy]
  · decide

/-- C8: whenever the platform field holds a non-empty string, architecture
detection returns that string lower-cased, regardless of image or
stackfile content (the image/stackfile scans are never reached). -/
theorem claim8_platform_wins (t : Template) (s : String)
    (hp : t.platform = some s) (hs : s ≠ "") :
    detect_architecture t = pyLower s := by
  unfold detect_architecture
  rw [hp]
  simp only [Option.getD_some]
  rw [if_pos]
  intro hcon
  apply hs
  have hdata : s.data.map Char.toLower = [] := by
    have := congrArg String.data hcon
    simpa [pyLower] using this
  have : s.data = [] := List.map_eq_nil_iff.mp hdata
  cases s with
  | mk data =>
    simp at this
    rw [this]

/-- Record used to witness C8: platform says windows, image mentions arm64. -/
def claim8Record : Template :=
  { blankTemplate with platform := some "windows", image := some "xarm64x" }

theorem claim8_witness :
    pyContains (pyLower (claim8Record.image.getD "")) "arm64" = true
    ∧ detect_architecture claim8Record = "windows" := by
  refine ⟨by decide, ?_⟩
  rw [claim8_platform_wins claim8Record "windows" rfl (by decide)]
  decide

/-- Every record emitted by handle_duplicate_group went through
clean_template, so its _source field is gone. -/
theorem handle_duplicate_group_source (title : String) (g : List Template) :
    ∀ r ∈ handle_duplicate_group title g, r.source = none := by
  intro r hr
  unfold handle_duplicate_group at hr
  rw [List.mem_append] at hr
  rcases hr with hr | hr
  · rw [List.mem_map] at hr
    obtain ⟨p, _, rfl⟩ := hr
    rfl
  · rw [List.mem_map] at hr
    obtain ⟨x, _, rfl⟩ := hr
    rfl

/-- C9: no record in the output of the deduplication stage carries the
_source key - singleton groups, variants-derived records and surviving
unique records are all stripped. -/
theorem claim9_no_source_in_output (templates : List Template) :
    (process_duplicate_templates templates).all (fun r => r.source.isNone) = true := by
  rw [List.all_eq_true]
  intro r hr
  suffices h : r.source = none by simp [h]
  unfold process_duplicate_templates at hr
  rw [List.mem_flatMap] at hr
  obtain ⟨title, _, hrt⟩ := hr
  revert hrt
  generalize (templates.filter fun t => pyStrip (t.title.getD "") ≠ "").filter
      (fun t => pyStrip (t.title.getD "") = title) = group
  intro hrt
  match group, hrt with
  | [g0], hrt =>
    rw [List.mem_singleton] at hrt
    rw [hrt]
    rfl
  | [], hrt => exact handle_duplicate_group_source title [] r hrt
  | g0 :: g1 :: grest, hrt => exact handle_duplicate_group_source title _ r hrt

/-- C1: in a two-record group with equal detected architectures where the
second record is at least 0.70-similar to the first (the threshold test in
the code is >=, so exactly 0.70 qualifies) and the quality scores are 40
for the first record and 25 for the second, deduplication emits exactly
the higher-scoring first record with _source removed. -/
theorem claim1_same_arch_better_score_wins (title : String) (t1 t2 : Template)
    (hsim : (7 : Rat)/10 ≤ calculate_similarity t2 t1)
    (harch : detect_architecture t2 = detect_architecture t1)
    (hscore1 : calculate_template_score t1 = 40)
    (hscore2 : calculate_template_score t2 = 25) :
    handle_duplicate_group title [t1, t2] = [clean_template t1] := by
  have hp : (decide ((7 : Rat)/10 ≤ calculate_similarity t2 t1)) = true := decide_eq_true hsim
  have hstep1 : processGroupMember ([], []) t1 = ([t1], []) := by
    unfold processGroupMember
    simp [List.find?]
  have hbetter : is_better_template t2 t1 = false := by
    unfold is_better_template
    rw [hscore1, hscore2]
    decide
  have hstep2 : processGroupMember ([t1], []) t2 = ([t1], []) := by
    unfold processGroupMember
    simp only [List.find?, hp]
    rw [if_neg (by simp [harch])]
    rw [if_neg (by simp [hbetter])]
  unfold handle_duplicate_group
  rw [List.foldl_cons, hstep1, List.foldl_cons, hstep2, List.foldl_nil]
  simp [removeVariantsLoop]

/-- First witness record for C1 (score 40). -/
def claim1First : Template :=
  { title := some "a", description := some "d", image := some "i", logo := some "l",
    platform := none, categories := some ["c"], env := none, ports := none,
    volumes := none, repository := some { url := some "u", stackfile := some "" },
    restart_policy := none, note := none, source := some "s1" }

/-- Second witness record for C1 (score 25, similarity to the first
exactly 0.70). -/
def claim1Second : Template :=
  { title := some "a", description := none, image := some "i", logo := some "l",
    platform := some "linux", categories := some ["c"],
    env := some [{ name := some "n", default := none }],
    ports := some [{ pairs := [("p", "80/tcp")] }],
    volumes := some [{ container := some "c", bind := some "b" }],
    repository := some { url := none, stackfile := some "" },
    restart_policy := none, note := none, source := some "s2" }

theorem claim1_witness :
    calculate_similarity claim1Second claim1First = 7/10
    ∧ handle_duplicate_group "a" [claim1First, claim1Second] = [clean_template claim1First] := by
  have e1 : text_similarity "a" "a" = 1 := text_similarity_self _
  have e2 : text_similarity "i" "i" = 1 := text_similarity_self _
  have e3 : text_similarity "" "" = 1 := text_similarity_self _
  have e4 : text_similarity "" "d" = 0 := by simp [text_similarity]
  have e5 : compare_env_vars [{ name := some "n", default := none }] [] = 0 := by
    simp [compare_env_vars]
  have hsim : calculate_similarity claim1Second claim1First = 7/10 := by
    unfold calculate_similarity
    simp only [claim1Second, claim1First, Option.getD_some, Option.getD_none]
    rw [e1, e2, e4, e3, e5]
    norm_num
  refine ⟨hsim, claim1_same_arch_better_score_wins "a" claim1First claim1Second
    (le_of_eq hsim.symm) (by decide) (by decide) (by decide)⟩

theorem stringAppendAssocAux (a b c : String) : a ++ b ++ c = a ++ (b ++ c) := by
  apply String.ext
  simp

/-- C2: in a two-record group where the second record is at least
0.70-similar to the first and the detected architectures are amd64 (first)
and arm64 (second), deduplication emits exactly two records, titled
"title-arm64" and "title-amd64", and none with the original title. -/
theorem claim2_architecture_variant_split (title : String) (t1 t2 : Template)
    (hsim : (7 : Rat)/10 ≤ calculate_similarity t2 t1)
    (h1 : detect_architecture t1 = "amd64")
    (h2 : detect_architecture t2 = "arm64") :
    (handle_duplicate_group title [t1, t2]).map Template.title
      = [some (title ++ "-arm64"), some (title ++ "-amd64")]
    ∧ ∀ r ∈ handle_duplicate_group title [t1, t2], r.title ≠ some title := by
  have hp : (decide ((7 : Rat)/10 ≤ calculate_similarity t2 t1)) = true := decide_eq_true hsim
  have hne : ¬ (t2 = t1) := by
    intro h
    rw [h, h1] at h2
    exact absurd h2 (by decide)
  have hstep1 : processGroupMember ([], []) t1 = ([t1], []) := by
    unfold processGroupMember
    simp [List.find?]
  have hstep2 : processGroupMember ([t1], []) t2
      = ([t1], [("arm64", t2), ("amd64", t1)]) := by
    unfold processGroupMember
    simp only [List.find?, hp]
    rw [if_pos (by rw [h1, h2]; decide)]
    simp only [List.any_nil, List.any_cons, List.nil_append, h1, h2]
    rw [if_neg (by simp), if_neg (by simp)]
    rfl
  have hrem : removeVariantsLoop [("arm64", t2), ("amd64", t1)] [t1] = [] := by
    unfold removeVariantsLoop
    rw [List.foldl_cons]
    rw [if_neg (show ¬ t2 ∈ [t1] by rw [List.mem_singleton]; exact hne)]
    rw [List.foldl_cons]
    rw [if_pos (show t1 ∈ [t1] from List.mem_singleton.mpr rfl)]
    rw [List.foldl_nil]
    simp [removeFirstEq]
  have hout : handle_duplicate_group title [t1, t2]
      = [{ clean_template t2 with title := some (title ++ "-arm64") },
         { clean_template t1 with title := some (title ++ "-amd64") }] := by
    unfold handle_duplicate_group
    rw [List.foldl_cons, hstep1, List.foldl_cons, hstep2, List.foldl_nil]
    show ([("arm64", t2), ("amd64", t1)].map fun p =>
        { clean_template p.2 with title := some (title ++ "-" ++ p.1) })
      ++ (removeVariantsLoop [("arm64", t2), ("amd64", t1)] [t1]).map clean_template = _
    rw [hrem]
    simp only [List.map_cons, List.map_nil, List.append_nil]
    rw [stringAppendAssocAux title "-" "arm64", stringAppendAssocAux title "-" "amd64"]
    rw [show ("-" ++ "arm64" : String) = "-arm64" from by decide]
    rw [show ("-" ++ "amd64" : String) = "-amd64" from by decide]
  have hlen : ∀ s : String, s.length = 6 → some (title ++ s) ≠ some title := by
    intro s hs hcon
    have := congrArg String.length (Option.some.inj hcon)
    rw [String.length_append, hs] at this
    omega
  constructor
  · rw [hout]
    rfl
  · intro r hr
    rw [hout] at hr
    simp only [List.mem_cons, List.not_mem_nil, or_false] at hr
    rcases hr with rfl | rfl
    · exact hlen "-arm64" (by decide)
    · exact hlen "-amd64" (by decide)

/-- First witness record for C2 (architecture amd64). -/
def claim2First : Template :=
  { title := some "t", description := some "d", image := some "i", logo := none,
    platform := some "amd64", categories := none, env := none, ports := none,
    volumes := none, repository := none, restart_policy := none, note := none,
    source := some "s1" }

/-- Second witness record for C2 (architecture arm64, similarity 0.85). -/
def claim2Second : Template :=
  { title := some "t", description := some "d", image := some "i", logo := none,
    platform := some "arm64", categories := none, env := none, ports := none,
    volumes := none, repository := none, restart_policy := none, note := none,
    source := some "s2" }

theorem claim2_witness :
    (handle_duplicate_group "t" [claim2First, claim2Second]).map Template.title
      = [some "t-arm64", some "t-amd64"]
    ∧ ∀ r ∈ handle_duplicate_group "t" [claim2First, claim2Second], r.title ≠ some "t" := by
  have hsim : calculate_similarity claim2Second claim2First = 17/20 := by
    unfold calculate_similarity
    simp only [claim2Second, claim2First, Option.getD_some, Option.getD_none]
    rw [text_similarity_self, text_similarity_self, text_similarity_self, compare_env_vars_self]
    norm_num
  have h := claim2_architecture_variant_split "t" claim2First claim2Second
    (by rw [hsim]; norm_num) (by decide) (by decide)
  refine ⟨?_, ?_⟩
  · rw [h.1]
    decide
  · intro r hr
    have := h.2 r hr
    exact this

/-!
## Raw JSON documents and format conversion (src/utils.py)

`detect_format` and `convert_to_portainer` receive arbitrary decoded JSON
documents, modelled by `JVal` (numbers as integers; floating point values
never influence any claim).  Python dicts become ordered association lists
with unique keys (a parsed JSON object cannot carry duplicate keys);
assignment to an existing key overwrites in place, assignment to a new key
appends, mirroring the insertion-order semantics of dict.  Conversion
failures (ValueError, TypeError, AttributeError raised by the source) are
modelled with `Except String`.
-/

inductive JVal where
  | str : String → JVal
  | num : Int → JVal
  | bool : Bool → JVal
  | null : JVal
  | arr : List JVal → JVal
  | obj : List (String × JVal) → JVal

def jLookup (key : String) : List (String × JVal) → Option JVal
  | [] => none
  | (k, v) :: rest => if k = key then some v else jLookup key rest

/-- Python `key in dict`. -/
def hasKey (key : String) (fields : List (String × JVal)) : Bool :=
  (jLookup key fields).isSome

/-- Python truthiness of a JSON value. -/
def jTruthy : JVal → Bool
  | .str s => s ≠ ""
  | .num n => n ≠ 0
  | .bool b => b
  | .null => false
  | .arr l => !l.isEmpty
  | .obj l => !l.isEmpty

/-- Python str() of a JSON value.  The rendering of containers is not
modelled precisely (no claim ever observes it). -/
def pyStr : JVal → String
  | .str s => s
  | .num n => toString n
  | .bool b => if b then "True" else "False"
  | .null => "None"
  | .arr _ => "[...]"
  | .obj _ => "\x7b...\x7d"

/-- Python dict assignment `d[key] = v`: overwrite in place when the key
exists, append otherwise. -/
def objInsert (fields : List (String × JVal)) (key : String) (v : JVal) :
    List (String × JVal) :=
  if hasKey key fields then fields.map fun p => if p.1 = key then (key, v) else p
  else fields ++ [(key, v)]

/-- Python s.split(sep, 1) for a single-character separator, given that the
separator occurs: the parts before and after its first occurrence. -/
def splitFirstAt (c : Char) : List Char → List Char × List Char
  | [] => ([], [])
  | x :: xs =>
    if x = c then ([], xs)
    else
      let r := splitFirstAt c xs
      (x :: r.1, r.2)

/-- Python s.split(sep) for a single-character separator (no limit). -/
def splitAllAt (c : Char) : List Char → List (List Char)
  | [] => [[]]
  | x :: xs =>
    let r := splitAllAt c xs
    if x = c then [] :: r
    else
      match r with
      | h :: t => (x :: h) :: t
      | [] => [[x]]

/-- Python s.startswith(prefix). -/
def pyStartsWith (s pre : String) : Bool := pre.data.isPrefixOf s.data

/-- Python s[n:] as used for stripping a leading "./". -/
def pyDrop (s : String) (n : Nat) : String := ⟨s.data.drop n⟩

/-- Python s.replace(old, new) for single characters, as used for
replace('_', ' '). -/
def replaceUnderscores (s : String) : String :=
  ⟨s.data.map fun c => if c = '_' then ' ' else c⟩

/-- Python str.title(): capitalize the first cased character of each run of
cased characters and lower-case the rest (ASCII letters modelled). -/
def pyTitleChars : List Char → Bool → List Char
  | [], _ => []
  | c :: cs, prevCased =>
    if c.isAlpha then (if prevCased then c.toLower else c.toUpper) :: pyTitleChars cs true
    else c :: pyTitleChars cs false

def pyTitle (s : String) : String := ⟨pyTitleChars s.data false⟩

/-- Python "; ".join. -/
def joinSemicolons : List String → String
  | [] => ""
  | [x] => x
  | x :: xs => x ++ "; " ++ joinSemicolons xs

/-- DockerComposeConverter.is_docker_compose_data (src/utils.py 245-256). -/
def is_docker_compose_data : JVal → Bool
  | .obj fields =>
    let has_services := match jLookup "services" fields with
      | some (.obj _) => true
      | _ => false
    let has_version := hasKey "version" fields
    let has_compose_fields :=
      hasKey "services" fields || hasKey "networks" fields || hasKey "volumes" fields
    has_services || (has_version && has_compose_fields)
  | _ => false

/-- TemplateConverter.detect_format (src/utils.py 103-132). -/
def detect_format (data : JVal) : String :=
  match data with
  | .obj fields =>
    if is_docker_compose_data (.obj fields) then "docker_compose"
    else if hasKey "templates" fields && hasKey "version" fields then "portainer"
    else if hasKey "title" fields || hasKey "image" fields then "portainer_single"
    else if hasKey "displayName" fields && hasKey "name" fields then "qnap_single"
    else "unknown"
  | .arr items =>
    match items with
    | first :: _ =>
      match first with
      | .obj ff =>
        if hasKey "displayName" ff && hasKey "name" ff then "qnap_array"
        else if hasKey "title" ff || hasKey "image" ff then "portainer_array"
        else "unknown"
      | _ => "unknown"
    | [] => "unknown"
  | _ => "unknown"

/-- DockerComposeConverter._map_restart_policy (src/utils.py 338-347). -/
def map_restart_policy (restart : String) : String :=
  if restart = "no" then "no"
  else if restart = "always" then "always"
  else if restart = "on-failure" then "on-failure"
  else if restart = "unless-stopped" then "unless-stopped"
  else "unless-stopped"

/-- One env entry of a Compose environment list
(DockerComposeConverter._convert_environment, list branch): strings split
at the first =, other entry types silently skipped. -/
def convertEnvEntry : JVal → List JVal
  | .str env =>
    if env.data.contains '=' then
      let p := splitFirstAt '=' env.data
      [.obj [("name", .str ⟨p.1⟩), ("default", .str ⟨p.2⟩)]]
    else [.obj [("name", .str env)]]
  | _ => []

/-- DockerComposeConverter._convert_environment (src/utils.py 349-369). -/
def convert_environment : JVal → List JVal
  | .arr items => items.flatMap convertEnvEntry
  | .obj pairs =>
    pairs.map fun p =>
      match p.2 with
      | .null => .obj [("name", .str p.1)]
      | v => .obj [("name", .str p.1), ("default", .str (pyStr v))]
  | _ => []

/-- The string branch of the ports loop
(DockerComposeConverter._convert_ports): "host:container[/proto]" or a bare
port; unpacking `container.split(sep)` into exactly two names raises
ValueError when the part after the colon holds more than one slash. -/
def portOfString (port : String) : Except String JVal :=
  if port.data.contains ':' then
    let container_port := (splitFirstAt ':' port.data).2
    if container_port.contains '/' then
      match splitAllAt '/' container_port with
      | [cp, proto] =>
        .ok (.obj [("Port " ++ (⟨cp⟩ : String), .str ((⟨cp⟩ : String) ++ "/" ++ (⟨proto⟩ : String)))])
      | _ => .error "ValueError: too many values to unpack"
    else
      .ok (.obj [("Port " ++ (⟨container_port⟩ : String),
        .str ((⟨container_port⟩ : String) ++ "/tcp"))])
  else .ok (.obj [("Port " ++ port, .str (port ++ "/tcp"))])

/-- One iteration of the ports loop: strings via `portOfString`, expanded
dicts keyed by the target port (the computed `published` value is unused by
the source), anything else skipped. -/
def convertPortEntry : JVal → Except String (List JVal)
  | .str p => do
    let v ← portOfString p
    pure [v]
  | .obj p =>
    let target := (jLookup "target" p).getD (.str "")
    let protocol := (jLookup "protocol" p).getD (.str "tcp")
    if jTruthy target then
      .ok [.obj [("Port " ++ pyStr target, .str (pyStr target ++ "/" ++ pyStr protocol))]]
    else .ok []
  | _ => .ok []

def convertPortList : List JVal → Except String (List JVal)
  | [] => .ok []
  | x :: xs => do
    let h ← convertPortEntry x
    let t ← convertPortList xs
    pure (h ++ t)

/-- DockerComposeConverter._convert_ports (src/utils.py 371-405).  The
source iterates `for port in ports`: a list yields its items, a dict its
keys, a string its characters; other values raise TypeError. -/
def convertPorts : JVal → Except String (List JVal)
  | .arr items => convertPortList items
  | .obj pairs => convertPortList (pairs.map fun p => .str p.1)
  | .str s => convertPortList (s.data.map fun c => .str ⟨[c]⟩)
  | _ => .error "TypeError: not iterable"

/-- The string branch of the volumes loop
(DockerComposeConverter._convert_volumes): "host:container[:mode]";
bare-name and dot-slash relative host paths are relocated under the
virtual data prefix. -/
def volumeOfString (volume : String) : List JVal :=
  if volume.data.contains ':' then
    let parts := splitAllAt ':' volume.data
    let host_path : String := ⟨parts.headD []⟩
    let container_path : String := ⟨(parts.drop 1).headD []⟩
    let host_path :=
      if ¬ pyStartsWith host_path "/" ∧ ¬ pyStartsWith host_path "." then "!data/" ++ host_path
      else if pyStartsWith host_path "./" then "!data/" ++ pyDrop host_path 2
      else host_path
    [.obj [("container", .str container_path), ("bind", .str host_path)]]
  else []

def convertVolumeEntry : JVal → Except String (List JVal)
  | .str v => .ok (volumeOfString v)
  | .obj v =>
    let source := (jLookup "source" v).getD (.str "")
    let target := (jLookup "target" v).getD (.str "")
    if jTruthy source && jTruthy target then
      match source with
      | .str s =>
        let s2 := if ¬ pyStartsWith s "/" ∧ ¬ pyStartsWith s "." then "!data/" ++ s else s
        .ok [.obj [("container", target), ("bind", .str s2)]]
      | _ => .error "AttributeError: startswith"
    else .ok []
  | _ => .ok []

def convertVolumeList : List JVal → Except String (List JVal)
  | [] => .ok []
  | x :: xs => do
    let h ← convertVolumeEntry x
    let t ← convertVolumeList xs
    pure (h ++ t)

/-- DockerComposeConverter._convert_volumes (src/utils.py 407-447), with
the same iteration semantics as `convertPorts`. -/
def convertVolumes : JVal → Except String (List JVal)
  | .arr items => convertVolumeList items
  | .obj pairs => convertVolumeList (pairs.map fun p => .str p.1)
  | .str s => convertVolumeList (s.data.map fun c => .str ⟨[c]⟩)
  | _ => .error "TypeError: not iterable"

/-- DockerComposeConverter._detect_categories (src/utils.py 449-480). -/
def detectCategories (service_name image : String) : List String :=
  let service_lower := pyLower service_name
  let image_lower := pyLower image
  let service_patterns : List (String × List String) :=
    [("database", ["mysql", "postgres", "mongodb", "redis", "mariadb", "sqlite"]),
     ("webserver", ["nginx", "apache", "httpd", "caddy"]),
     ("media", ["plex", "jellyfin", "emby", "sonarr", "radarr"]),
     ("networking", ["traefik", "nginx-proxy", "haproxy"]),
     ("monitoring", ["prometheus", "grafana", "influxdb", "telegraf"]),
     ("development", ["node", "python", "php", "ruby"]),
     ("storage", ["nextcloud", "owncloud", "seafile"]),
     ("communication", ["rocketchat", "mattermost", "discord"]),
     ("security", ["vault", "keycloak", "authelia"])]
  let categories := service_patterns.foldr
    (fun p acc =>
      if p.2.any (fun keyword => pyContains service_lower keyword || pyContains image_lower keyword)
      then p.1 :: acc else acc) []
  if categories = [] then ["tools"] else categories

/-- The description block of _convert_service_to_template
(src/utils.py 297-305): labels.description or the traefik frontend rule
when labels is a dict and the value is truthy, else a synthesized
"Container service: name". -/
def addComposeDescription (service_name : String)
    (labelsDict : Option (List (String × JVal))) (template : List (String × JVal)) :
    List (String × JVal) :=
  let template := match labelsDict with
    | some l =>
      let description := (jLookup "description" l).getD
        ((jLookup "traefik.frontend.rule" l).getD (.str ""))
      if jTruthy description then objInsert template "description" description else template
    | none => template
  if jTruthy ((jLookup "description" template).getD (.str "")) then template
  else objInsert template "description" (.str ("Container service: " ++ service_name))

/-- The note block of _convert_service_to_template (src/utils.py 327-334):
the first three non-description label pairs joined into a note. -/
def addComposeNote (labelsDict : Option (List (String × JVal)))
    (template : List (String × JVal)) : List (String × JVal) :=
  match labelsDict with
  | some l =>
    let notes := (l.filter fun p => p.1 ≠ "description").map fun p => p.1 ++ ": " ++ pyStr p.2
    if notes ≠ [] then
      objInsert template "note" (.str ("Docker Compose labels: " ++ joinSemicolons (notes.take 3)))
    else template
  | none => template

/-- DockerComposeConverter._convert_service_to_template
(src/utils.py 283-336).  Returns none for services without an image;
propagates the Python errors of the ill-typed cases: a non-string
container_name (AttributeError on replace), an unhashable restart value
(TypeError on dict lookup), ill-formed port strings (ValueError on
unpacking), a non-string truthy volume source (AttributeError on
startswith) and a non-string image (AttributeError on lower inside
_detect_categories). -/
def convert_service_to_template (service_name : String)
    (service_config : List (String × JVal)) : Except String (Option JVal) :=
  if hasKey "image" service_config = false then .ok none
  else do
    let rawTitleE : Except String String :=
      match jLookup "container_name" service_config with
      | some (.str s) => .ok s
      | some _ => .error "AttributeError: replace"
      | none => .ok service_name
    let rawTitle ← rawTitleE
    let image := (jLookup "image" service_config).getD .null
    let restartVal := (jLookup "restart" service_config).getD (.str "no")
    let restartE : Except String String :=
      match restartVal with
      | .arr _ => .error "TypeError: unhashable type"
      | .obj _ => .error "TypeError: unhashable type"
      | .str s => .ok (map_restart_policy s)
      | _ => .ok "unless-stopped"
    let restart ← restartE
    let template : List (String × JVal) :=
      [("title", .str (pyTitle (replaceUnderscores rawTitle))),
       ("image", image),
       ("platform", .str "linux"),
       ("restart_policy", .str restart)]
    let labelsDict : Option (List (String × JVal)) :=
      match jLookup "labels" service_config with
      | some (.obj l) => some l
      | _ => none
    let template := addComposeDescription service_name labelsDict template
    let env_vars := convert_environment ((jLookup "environment" service_config).getD (.arr []))
    let template := if !env_vars.isEmpty then objInsert template "env" (.arr env_vars) else template
    let ports ← convertPorts ((jLookup "ports" service_config).getD (.arr []))
    let template := if !ports.isEmpty then objInsert template "ports" (.arr ports) else template
    let volumes ← convertVolumes ((jLookup "volumes" service_config).getD (.arr []))
    let template := if !volumes.isEmpty then objInsert template "volumes" (.arr volumes) else template
    let imageStrE : Except String String :=
      match image with
      | .str s => .ok s
      | _ => .error "AttributeError: lower"
    let imageStr ← imageStrE
    let categories := detectCategories service_name imageStr
    let template :=
      if categories ≠ [] then objInsert template "categories" (.arr (categories.map .str))
      else template
    let template := addComposeNote labelsDict template
    pure (some (.obj template))

/-- The services loop of convert_compose_to_portainer: non-dict service
configs are skipped, converted services without an image contribute
nothing. -/
def convertServices : List (String × JVal) → Except String (List JVal)
  | [] => .ok []
  | (name, cfg) :: rest =>
    match cfg with
    | .obj c => do
      let t ← convert_service_to_template name c
      let ts ← convertServices rest
      pure (match t with
        | some tv => tv :: ts
        | none => ts)
    | _ => convertServices rest

/-- DockerComposeConverter.convert_compose_to_portainer
(src/utils.py 258-281). -/
def convert_compose_to_portainer (compose_data : JVal) : Except String JVal :=
  match compose_data with
  | .obj fields =>
    match jLookup "services" fields with
    | none => .error "Invalid Docker Compose format: missing services section"
    | some (.obj services) => do
      let templates ← convertServices services
      pure (.obj [("version", .str "2"), ("templates", .arr templates)])
    | some _ => .error "Invalid Docker Compose format: services must be a dictionary"
  | _ => .error "Invalid Docker Compose format: missing services section"

/-- TemplateConverter._convert_qnap_template (src/utils.py 156-216).
The arch mapping table sends every listed architecture to linux and
defaults to linux, so the stored platform is always linux; arm64/arm/386
additionally get a parenthetical title suffix.  Python raises for a
non-string name combined with a version (TypeError on string
concatenation; a list name would extend instead, but the well-formedness
predicate used by the claims requires a string) and for an unhashable arch
value (TypeError on the mapping lookup). -/
def convert_qnap_template (qnap_template : List (String × JVal)) :
    Except String (List (String × JVal)) := do
  let t : List (String × JVal) := []
  let t := match jLookup "displayName" qnap_template with
    | some v => objInsert t "title" v
    | none => t
  let t := match jLookup "description" qnap_template with
    | some v => objInsert t "description" v
    | none => t
  let imageStepE : Except String (List (String × JVal)) :=
    match jLookup "name" qnap_template with
    | some nv =>
      match jLookup "version" qnap_template with
      | some vv =>
        match nv with
        | .str s => .ok (objInsert t "image" (.str (s ++ ":" ++ pyStr vv)))
        | _ => .error "TypeError: unsupported operand"
      | none => .ok (objInsert t "image" nv)
    | none => .ok t
  let t ← imageStepE
  let t := match jLookup "icon" qnap_template with
    | some v => objInsert t "logo" v
    | none => t
  let t := match jLookup "type" qnap_template with
    | some v => objInsert t "categories" (.arr [v])
    | none => t
  let archStepE : Except String (List (String × JVal)) :=
    match jLookup "arch" qnap_template with
    | some av =>
      match av with
      | .arr _ => .error "TypeError: unhashable type"
      | .obj _ => .error "TypeError: unhashable type"
      | _ =>
        let t := objInsert t "platform" (.str "linux")
        let t := match av with
          | .str s =>
            if s = "arm64" ∨ s = "arm" ∨ s = "386" then
              let orig := (jLookup "title" t).getD (.str "")
              objInsert t "title" (.str (pyStr orig ++ " (" ++ s ++ ")"))
            else t
          | _ => t
        .ok t
    | none => .ok t
  let t ← archStepE
  let t := match jLookup "location" qnap_template with
    | some lv =>
      let note_text := "Source: " ++ pyStr lv
      let note_text := match jLookup "qcsVersion" qnap_template with
        | some qv => note_text ++ " (QCS Version: " ++ pyStr qv ++ ")"
        | none => note_text
      objInsert t "note" (.str note_text)
    | none => t
  let t := objInsert t "restart_policy" (.str "unless-stopped")
  let t := match jLookup "repository" qnap_template with
    | some (.str "dockerhub") =>
      match jLookup "location" qnap_template with
      | some lv => objInsert t "repository" (.obj [("url", lv), ("stackfile", .str "")])
      | none => t
    | _ => t
  pure t

/-- One element of a QNAP template array.  Non-dict items always end up
raising in Python (a TypeError or AttributeError once their fields are
accessed), modelled as an immediate error. -/
def convertQnapItem : JVal → Except String JVal
  | .obj fields => do
    let t ← convert_qnap_template fields
    pure (.obj t)
  | _ => .error "TypeError: template item is not a dict"

def convertQnapList : List JVal → Except String (List JVal)
  | [] => .ok []
  | x :: xs => do
    let t ← convertQnapItem x
    let ts ← convertQnapList xs
    pure (t :: ts)

/-- TemplateConverter.convert_to_portainer (src/utils.py 134-154):
dispatch on the detected format; unknown formats raise ValueError. -/
def convert_to_portainer (data : JVal) : Except String JVal :=
  let format_type := detect_format data
  if format_type = "portainer" then .ok data
  else if format_type = "portainer_single" then
    .ok (.obj [("version", .str "2"), ("templates", .arr [data])])
  else if format_type = "portainer_array" then
    .ok (.obj [("version", .str "2"), ("templates", data)])
  else if format_type = "docker_compose" then convert_compose_to_portainer data
  else if format_type = "qnap_single" then
    match data with
    | .obj fields => do
      let t ← convert_qnap_template fields
      pure (.obj [("version", .str "2"), ("templates", .arr [.obj t])])
    | _ => .error "unreachable: qnap_single is only detected for dicts"
  else if format_type = "qnap_array" then
    match data with
    | .arr items => do
      let ts ← convertQnapList items
      pure (.obj [("version", .str "2"), ("templates", .arr ts)])
    | _ => .error "unreachable: qnap_array is only detected for lists"
  else .error ("Unsupported template format: " ++ format_type)

theorem jLookup_map_overwrite (k k' : String) (v : JVal) (h : k ≠ k') :
    ∀ fields, jLookup k (fields.map fun p => if p.1 = k' then (k', v) else p) = jLookup k fields := by
  intro fields
  induction fields with
  | nil => rfl
  | cons p rest ih =>
    rcases p with ⟨a, b⟩
    simp only [List.map_cons]
    by_cases ha : a = k'
    · have hhead : (if (a, b).1 = k' then (k', v) else (a, b)) = (k', v) := by simp [ha]
      rw [hhead]
      simp only [jLookup]
      rw [if_neg (Ne.symm h), if_neg (show ¬ a = k by rw [ha]; exact Ne.symm h)]
      exact ih
    · have hhead : (if (a, b).1 = k' then (k', v) else (a, b)) = (a, b) := by simp [ha]
      rw [hhead]
      simp only [jLookup]
      by_cases hak : a = k
      · rw [if_pos hak, if_pos hak]
      · rw [if_neg hak, if_neg hak]
        exact ih

theorem jLookup_append_single (k k' : String) (v : JVal) (h : k ≠ k') :
    ∀ fields, jLookup k (fields ++ [(k', v)]) = jLookup k fields := by
  intro fields
  induction fields with
  | nil => simp only [List.nil_append, jLookup, if_neg (Ne.symm h)]
  | cons p rest ih =>
    rcases p with ⟨a, b⟩
    simp only [List.cons_append, jLookup]
    by_cases hak : a = k
    · rw [if_pos hak, if_pos hak]
    · rw [if_neg hak, if_neg hak]
      exact ih

theorem jLookup_objInsert_ne (k k' : String) (v : JVal) (fields : List (String × JVal))
    (h : k ≠ k') : jLookup k (objInsert fields k' v) = jLookup k fields := by
  unfold objInsert
  split
  · exact jLookup_map_overwrite k k' v h fields
  · exact jLookup_append_single k k' v h fields

theorem exceptBind_ok {α β : Type} {e : Except String α} {f : α → Except String β} {r : β}
    (h : (e >>= f) = .ok r) : ∃ a, e = .ok a ∧ f a = .ok r := by
  cases e with
  | ok a => exact ⟨a, rfl, h⟩
  | error s => simp [Bind.bind, Except.bind] at h

/-- C10: for a Compose service with an image but no restart key, the
converted template carries restart_policy "no" (the source defaults the
missing value to the string "no" before the mapping table, whose "no"
entry maps to "no"; the unless-stopped fallback is not reached). -/
theorem lookupRP_ite (c : Prop) [Decidable c] (t : List (String × JVal)) (key : String)
    (v : JVal) (hk : ("restart_policy" : String) ≠ key) :
    jLookup "restart_policy" (if c then objInsert t key v else t)
      = jLookup "restart_policy" t := by
  split
  · exact jLookup_objInsert_ne _ _ _ _ hk
  · rfl

theorem lookupRP_addComposeDescription (service_name : String)
    (labelsDict : Option (List (String × JVal))) (t : List (String × JVal)) :
    jLookup "restart_policy" (addComposeDescription service_name labelsDict t)
      = jLookup "restart_policy" t := by
  unfold addComposeDescription
  have hinner : ∀ t0 : List (String × JVal),
      jLookup "restart_policy"
        (if jTruthy ((jLookup "description" t0).getD (JVal.str "")) = true then t0
         else objInsert t0 "description" (.str ("Container service: " ++ service_name)))
      = jLookup "restart_policy" t0 := by
    intro t0
    split
    · rfl
    · exact jLookup_objInsert_ne _ _ _ _ (by decide)
  cases labelsDict with
  | none => exact hinner t
  | some l =>
    dsimp only
    rw [hinner]
    split
    · exact jLookup_objInsert_ne _ _ _ _ (by decide)
    · rfl

theorem lookupRP_addComposeNote (labelsDict : Option (List (String × JVal)))
    (t : List (String × JVal)) :
    jLookup "restart_policy" (addComposeNote labelsDict t) = jLookup "restart_policy" t := by
  unfold addComposeNote
  cases labelsDict with
  | none => rfl
  | some l => exact lookupRP_ite _ _ _ _ (by decide)

theorem claim10_default_restart_policy (service_name : String)
    (service_config : List (String × JVal)) (tfields : List (String × JVal))
    (hrestart : jLookup "restart" service_config = none)
    (h : convert_service_to_template service_name service_config = .ok (some (.obj tfields))) :
    jLookup "restart_policy" tfields = some (.str "no") := by
  unfold convert_service_to_template at h
  by_cases himg : hasKey "image" service_config = false
  · rw [if_pos himg] at h
    simp at h
  · rw [if_neg himg] at h
    simp only [hrestart, Option.getD_none] at h
    obtain ⟨rawTitle, hrt, h⟩ := exceptBind_ok h
    obtain ⟨restart, hres, h⟩ := exceptBind_ok h
    have hres2 : restart = "no" := by
      have : Except.ok (map_restart_policy "no") = (Except.ok restart : Except String String) := hres
      have := Except.ok.inj this
      rw [← this]
      rfl
    subst hres2
    obtain ⟨ports, hports, h⟩ := exceptBind_ok h
    obtain ⟨volumes, hvols, h⟩ := exceptBind_ok h
    obtain ⟨imageStr, himgs, h⟩ := exceptBind_ok h
    simp only [pure, Except.pure] at h
    have := Except.ok.inj h
    have htf := Option.some.inj this
    have htf2 : (JVal.obj tfields) = _ := htf.symm
    cases htf2
    rw [lookupRP_addComposeNote, lookupRP_ite _ _ _ _ (by decide),
      lookupRP_ite _ _ _ _ (by decide), lookupRP_ite _ _ _ _ (by decide),
      lookupRP_ite _ _ _ _ (by decide), lookupRP_addComposeDescription]
    simp [jLookup, map_restart_policy]

/-- Output record of converting the single-service Compose document used
to witness C10. -/
def claim10Fields : List (String × JVal) :=
  [("title", .str "Web"), ("image", .str "nginx"), ("platform", .str "linux"),
   ("restart_policy", .str "no"), ("description", .str "Container service: web"),
   ("categories", .arr [.str "webserver"])]

theorem claim10_witness :
    convert_service_to_template "web" [("image", JVal.str "nginx")]
      = .ok (some (.obj claim10Fields))
    ∧ jLookup "restart_policy" claim10Fields = some (.str "no") :=
  ⟨rfl, claim10_default_restart_policy "web" [("image", JVal.str "nginx")] claim10Fields rfl rfl⟩

theorem detect_format_wrapper (v : JVal) :
    detect_format (.obj [("version", .str "2"), ("templates", v)]) = "portainer" := rfl

theorem convert_compose_shape (d r : JVal) (h : convert_compose_to_portainer d = .ok r) :
    ∃ ts, r = .obj [("version", .str "2"), ("templates", .arr ts)] := by
  unfold convert_compose_to_portainer at h
  cases d with
  | obj fields =>
    dsimp only at h
    rcases hs : jLookup "services" fields with _ | sv
    · rw [hs] at h
      simp at h
    · rw [hs] at h
      cases sv with
      | obj services =>
        obtain ⟨ts, hts, hpure⟩ := exceptBind_ok h
        refine ⟨ts, ?_⟩
        have := Except.ok.inj hpure
        exact this.symm
      | str s => simp at h
      | num n => simp at h
      | bool b => simp at h
      | null => simp at h
      | arr l => simp at h
  | str s => simp at h
  | num n => simp at h
  | bool b => simp at h
  | null => simp at h
  | arr l => simp at h

/-- C5: whenever convert_to_portainer succeeds, re-running format
detection on the produced document yields portainer: the passthrough case
already detects as portainer and every other branch produces the
two-key version-and-templates wrapper. -/
theorem claim5_convert_then_detect (doc res : JVal)
    (h : convert_to_portainer doc = .ok res) : detect_format res = "portainer" := by
  unfold convert_to_portainer at h
  by_cases h1 : detect_format doc = "portainer"
  · rw [if_pos h1] at h
    cases Except.ok.inj h
    exact h1
  · rw [if_neg h1] at h
    by_cases h2 : detect_format doc = "portainer_single"
    · rw [if_pos h2] at h
      cases Except.ok.inj h
      exact detect_format_wrapper _
    · rw [if_neg h2] at h
      by_cases h3 : detect_format doc = "portainer_array"
      · rw [if_pos h3] at h
        cases Except.ok.inj h
        exact detect_format_wrapper _
      · rw [if_neg h3] at h
        by_cases h4 : detect_format doc = "docker_compose"
        · rw [if_pos h4] at h
          obtain ⟨ts, rfl⟩ := convert_compose_shape doc res h
          exact detect_format_wrapper _
        · rw [if_neg h4] at h
          by_cases h5 : detect_format doc = "qnap_single"
          · rw [if_pos h5] at h
            cases doc with
            | obj fields =>
              obtain ⟨t, ht, hpure⟩ := exceptBind_ok h
              cases Except.ok.inj hpure
              exact detect_format_wrapper _
            | str s => simp at h
            | num n => simp at h
            | bool b => simp at h
            | null => simp at h
            | arr l => simp at h
          · rw [if_neg h5] at h
            by_cases h6 : detect_format doc = "qnap_array"
            · rw [if_pos h6] at h
              cases doc with
              | arr items =>
                obtain ⟨ts, hts, hpure⟩ := exceptBind_ok h
                cases Except.ok.inj hpure
                exact detect_format_wrapper _
              | str s => simp at h
              | num n => simp at h
              | bool b => simp at h
              | null => simp at h
              | obj fields => simp at h
            · rw [if_neg h6] at h
              simp at h

theorem claim5_witness :
    convert_to_portainer (.obj [("title", .str "x")])
      = .ok (.obj [("version", .str "2"), ("templates", .arr [.obj [("title", .str "x")]])])
    ∧ detect_format (.obj [("version", .str "2"), ("templates", .arr [.obj [("title", .str "x")]])])
      = "portainer" :=
  ⟨rfl, claim5_convert_then_detect (.obj [("title", .str "x")]) _ rfl⟩

/-- Success test for a modelled conversion. -/
def exceptIsOk {α : Type} : Except String α → Bool
  | .ok _ => true
  | .error _ => false

theorem ok_bind {α β : Type} (a : α) (f : α → Except String β) :
    ((Except.ok a : Except String α) >>= f) = f a := rfl

theorem exceptIsOk_iff {α : Type} (e : Except String α) :
    exceptIsOk e = true ↔ ∃ a, e = .ok a := by
  cases e with
  | ok a => simp [exceptIsOk]
  | error s => simp [exceptIsOk]

/-- The services-missing-or-not-a-mapping condition of the original claim:
the document has no services key or its value is not a dict. -/
def composeServicesBad (data : JVal) : Bool :=
  match data with
  | .obj fields =>
    match jLookup "services" fields with
    | some (.obj _) => false
    | _ => true
  | _ => true

/-- Well-formedness of one string entry of a Compose ports list: when the
entry names a container side with a protocol, it must hold exactly one
slash there, else Python fails to unpack the split. -/
def portStringWF (p : String) : Bool :=
  if p.data.contains ':' then
    let container_port := (splitFirstAt ':' p.data).2
    if container_port.contains '/' then decide ((splitAllAt '/' container_port).length = 2)
    else true
  else true

def portsWF (v : JVal) : Bool :=
  match v with
  | .arr items => items.all fun x => match x with | .str p => portStringWF p | _ => true
  | .obj pairs => pairs.all fun p => portStringWF p.1
  | .str _ => true
  | _ => false

def volumesWF (v : JVal) : Bool :=
  match v with
  | .arr items => items.all fun x =>
    match x with
    | .obj ventry =>
      let source := (jLookup "source" ventry).getD (.str "")
      let target := (jLookup "target" ventry).getD (.str "")
      if jTruthy source && jTruthy target then
        match source with | .str _ => true | _ => false
      else true
    | _ => true
  | .obj _ => true
  | .str _ => true
  | _ => false

/-- Well-typedness of one Compose service config: the fields the converter
manipulates as strings are strings, restart is hashable, and ports and
volumes are iterable with well-formed entries.  Services without an image
are skipped before any of this is touched. -/
def serviceWF (cfg : List (String × JVal)) : Bool :=
  !(hasKey "image" cfg) ||
  ((match jLookup "container_name" cfg with
    | some (.str _) => true
    | some _ => false
    | none => true)
   && (match (jLookup "restart" cfg).getD (.str "no") with
    | .arr _ => false
    | .obj _ => false
    | _ => true)
   && (match jLookup "image" cfg with | some (.str _) => true | _ => false)
   && portsWF ((jLookup "ports" cfg).getD (.arr []))
   && volumesWF ((jLookup "volumes" cfg).getD (.arr [])))

def composeWF (data : JVal) : Bool :=
  match data with
  | .obj fields =>
    match jLookup "services" fields with
    | some (.obj services) =>
      services.all fun p => match p.2 with | .obj c => serviceWF c | _ => true
    | _ => false
  | _ => false

/-- Well-typedness of one QNAP template object: a name that is paired with
a version must be a string, and an arch value must be hashable. -/
def qnapItemWF (fields : List (String × JVal)) : Bool :=
  (match jLookup "name" fields, jLookup "version" fields with
   | some nv, some _ => (match nv with | .str _ => true | _ => false)
   | _, _ => true)
  && (match jLookup "arch" fields with
   | some (.arr _) => false
   | some (.obj _) => false
   | _ => true)

def qnapWF (data : JVal) : Bool :=
  match data with
  | .obj fields => qnapItemWF fields
  | .arr items => items.all fun x => match x with | .obj f => qnapItemWF f | _ => false
  | _ => false

theorem portOfString_ok (p : String) (h : portStringWF p = true) :
    ∃ v, portOfString p = .ok v := by
  unfold portOfString
  unfold portStringWF at h
  by_cases hc : p.data.contains ':' = true
  · simp only [hc, if_true] at h ⊢
    by_cases hsl : (splitFirstAt ':' p.data).2.contains '/' = true
    · simp only [hsl, if_true] at h ⊢
      have hl := of_decide_eq_true h
      rcases hsp : splitAllAt '/' (splitFirstAt ':' p.data).2 with _ | ⟨a, rest⟩
      · rw [hsp] at hl
        simp at hl
      · rcases rest with _ | ⟨b, rest2⟩
        · rw [hsp] at hl
          simp at hl
        · rcases rest2 with _ | ⟨c, rest3⟩
          · exact ⟨_, rfl⟩
          · rw [hsp] at hl
            simp at hl
    · rw [Bool.not_eq_true] at hsl
      simp only [hsl, Bool.false_eq_true, if_false]
      exact ⟨_, rfl⟩
  · rw [Bool.not_eq_true] at hc
    simp only [hc, Bool.false_eq_true, if_false]
    exact ⟨_, rfl⟩

theorem portOfString_single (c : Char) : ∃ v, portOfString ⟨[c]⟩ = .ok v := by
  unfold portOfString
  by_cases hcon : ((⟨[c]⟩ : String).data.contains ':') = true
  · simp only [hcon, if_true]
    have h2 : (splitFirstAt ':' (⟨[c]⟩ : String).data).2 = [] := by
      show (splitFirstAt ':' [c]).2 = []
      unfold splitFirstAt
      split
      · rfl
      · rfl
    rw [h2]
    exact ⟨_, rfl⟩
  · rw [Bool.not_eq_true] at hcon
    simp only [hcon, Bool.false_eq_true, if_false]
    exact ⟨_, rfl⟩

theorem convertPortEntry_ok (x : JVal)
    (h : (match x with | .str p => portStringWF p | _ => true) = true) :
    ∃ l, convertPortEntry x = .ok l := by
  cases x with
  | str p =>
    obtain ⟨v, hv⟩ := portOfString_ok p h
    refine ⟨[v], ?_⟩
    show (portOfString p >>= fun v => pure [v]) = Except.ok [v]
    rw [hv, ok_bind]
    rfl
  | obj p =>
    unfold convertPortEntry
    dsimp only
    split
    · exact ⟨_, rfl⟩
    · exact ⟨_, rfl⟩
  | num n => exact ⟨_, rfl⟩
  | bool b => exact ⟨_, rfl⟩
  | null => exact ⟨_, rfl⟩
  | arr l => exact ⟨_, rfl⟩

theorem convertPortList_ok (items : List JVal)
    (h : ∀ x ∈ items, ∃ l, convertPortEntry x = .ok l) :
    ∃ l, convertPortList items = .ok l := by
  induction items with
  | nil => exact ⟨_, rfl⟩
  | cons x xs ih =>
    obtain ⟨lx, hx⟩ := h x (by simp)
    obtain ⟨ls, hs⟩ := ih fun y hy => h y (by simp [hy])
    refine ⟨lx ++ ls, ?_⟩
    unfold convertPortList
    rw [hx, ok_bind, hs, ok_bind]
    rfl

theorem convertPorts_ok (v : JVal) (h : portsWF v = true) :
    ∃ l, convertPorts v = .ok l := by
  cases v with
  | arr items =>
    apply convertPortList_ok
    intro x hx
    apply convertPortEntry_ok
    unfold portsWF at h
    rw [List.all_eq_true] at h
    exact h x hx
  | obj pairs =>
    apply convertPortList_ok
    intro x hx
    rw [List.mem_map] at hx
    obtain ⟨p, hp, rfl⟩ := hx
    apply convertPortEntry_ok
    unfold portsWF at h
    rw [List.all_eq_true] at h
    exact h p hp
  | str s =>
    apply convertPortList_ok
    intro x hx
    rw [List.mem_map] at hx
    obtain ⟨c, _, rfl⟩ := hx
    obtain ⟨v, hv⟩ := portOfString_single c
    refine ⟨[v], ?_⟩
    show (portOfString ⟨[c]⟩ >>= fun v => pure [v]) = Except.ok [v]
    rw [hv, ok_bind]
    rfl
  | num n => simp [portsWF] at h
  | bool b => simp [portsWF] at h
  | null => simp [portsWF] at h

theorem convertVolumeEntry_ok (x : JVal)
    (h : (match x with
      | .obj ventry =>
        let source := (jLookup "source" ventry).getD (.str "")
        let target := (jLookup "target" ventry).getD (.str "")
        if jTruthy source && jTruthy target then
          match source with | .str _ => true | _ => false
        else true
      | _ => true) = true) :
    ∃ l, convertVolumeEntry x = .ok l := by
  cases x with
  | str v => exact ⟨_, rfl⟩
  | obj ventry =>
    unfold convertVolumeEntry
    dsimp only
    by_cases ht : (jTruthy ((jLookup "source" ventry).getD (.str ""))
        && jTruthy ((jLookup "target" ventry).getD (.str ""))) = true
    · simp only [ht, if_true] at h ⊢
      cases hsrc : (jLookup "source" ventry).getD (JVal.str "") with
      | str s => exact ⟨_, rfl⟩
      | num n => rw [hsrc] at h; simp at h
      | bool b => rw [hsrc] at h; simp at h
      | null => rw [hsrc] at h; simp at h
      | arr l => rw [hsrc] at h; simp at h
      | obj o => rw [hsrc] at h; simp at h
    · rw [Bool.not_eq_true] at ht
      simp only [ht, Bool.false_eq_true, if_false]
      exact ⟨_, rfl⟩
  | num n => exact ⟨_, rfl⟩
  | bool b => exact ⟨_, rfl⟩
  | null => exact ⟨_, rfl⟩
  | arr l => exact ⟨_, rfl⟩

theorem convertVolumeList_ok (items : List JVal)
    (h : ∀ x ∈ items, ∃ l, convertVolumeEntry x = .ok l) :
    ∃ l, convertVolumeList items = .ok l := by
  induction items with
  | nil => exact ⟨_, rfl⟩
  | cons x xs ih =>
    obtain ⟨lx, hx⟩ := h x (by simp)
    obtain ⟨ls, hs⟩ := ih fun y hy => h y (by simp [hy])
    refine ⟨lx ++ ls, ?_⟩
    unfold convertVolumeList
    rw [hx, ok_bind, hs, ok_bind]
    rfl

theorem convertVolumes_ok (v : JVal) (h : volumesWF v = true) :
    ∃ l, convertVolumes v = .ok l := by
  cases v with
  | arr items =>
    apply convertVolumeList_ok
    intro x hx
    apply convertVolumeEntry_ok
    unfold volumesWF at h
    rw [List.all_eq_true] at h
    exact h x hx
  | obj pairs =>
    apply convertVolumeList_ok
    intro x hx
    rw [List.mem_map] at hx
    obtain ⟨p, hp, rfl⟩ := hx
    exact ⟨_, rfl⟩
  | str s =>
    apply convertVolumeList_ok
    intro x hx
    rw [List.mem_map] at hx
    obtain ⟨c, _, rfl⟩ := hx
    exact ⟨_, rfl⟩
  | num n => simp [volumesWF] at h
  | bool b => simp [volumesWF] at h
  | null => simp [volumesWF] at h

theorem isOk_bind {α β : Type} (e : Except String α) (f : α → Except String β)
    (he : ∃ a, e = .ok a) (hf : ∀ a, exceptIsOk (f a) = true) :
    exceptIsOk (e >>= f) = true := by
  obtain ⟨a, rfl⟩ := he
  rw [ok_bind]
  exact hf a

theorem convert_service_to_template_ok (name : String) (cfg : List (String × JVal))
    (h : serviceWF cfg = true) :
    exceptIsOk (convert_service_to_template name cfg) = true := by
  unfold convert_service_to_template
  by_cases himg : hasKey "image" cfg = false
  · rw [if_pos himg]
    rfl
  · rw [if_neg himg]
    unfold serviceWF at h
    have himg' : hasKey "image" cfg = true := by
      cases hx : hasKey "image" cfg
      · exact absurd hx himg
      · rfl
    rw [himg'] at h
    simp only [Bool.not_true, Bool.false_or, Bool.and_eq_true] at h
    obtain ⟨⟨⟨⟨hcn, hre⟩, him⟩, hpo⟩, hvo⟩ := h
    refine isOk_bind _ _ ?_ ?_
    · cases hc : jLookup "container_name" cfg with
      | none => exact ⟨name, rfl⟩
      | some v =>
        cases v with
        | str s => exact ⟨s, rfl⟩
        | num n => rw [hc] at hcn; simp at hcn
        | bool b => rw [hc] at hcn; simp at hcn
        | null => rw [hc] at hcn; simp at hcn
        | arr l => rw [hc] at hcn; simp at hcn
        | obj o => rw [hc] at hcn; simp at hcn
    · intro rawTitle
      refine isOk_bind _ _ ?_ ?_
      · cases hv : (jLookup "restart" cfg).getD (JVal.str "no") with
        | arr l => rw [hv] at hre; simp at hre
        | obj o => rw [hv] at hre; simp at hre
        | str s => exact ⟨_, rfl⟩
        | num n => exact ⟨_, rfl⟩
        | bool b => exact ⟨_, rfl⟩
        | null => exact ⟨_, rfl⟩
      · intro restart
        refine isOk_bind _ _ (convertPorts_ok _ hpo) ?_
        intro ports
        refine isOk_bind _ _ (convertVolumes_ok _ hvo) ?_
        intro volumes
        refine isOk_bind _ _ ?_ ?_
        · cases hi : jLookup "image" cfg with
          | none => rw [hi] at him; simp at him
          | some v =>
            cases v with
            | str s => exact ⟨s, rfl⟩
            | num n => rw [hi] at him; simp at him
            | bool b => rw [hi] at him; simp at him
            | null => rw [hi] at him; simp at him
            | arr l => rw [hi] at him; simp at him
            | obj o => rw [hi] at him; simp at him
        · intro imageStr
          rfl

theorem convertServices_ok (services : List (String × JVal))
    (h : (services.all fun p => match p.2 with | .obj c => serviceWF c | _ => true) = true) :
    exceptIsOk (convertServices services) = true := by
  induction services with
  | nil => rfl
  | cons p rest ih =>
    rw [List.all_cons, Bool.and_eq_true] at h
    obtain ⟨hp, hrest⟩ := h
    rcases p with ⟨name, cfg⟩
    cases cfg with
    | obj c =>
      refine isOk_bind _ _ ?_ ?_
      · have := convert_service_to_template_ok name c hp
        rw [exceptIsOk_iff] at this
        exact this
      · intro t
        refine isOk_bind _ _ ?_ ?_
        · have := ih hrest
          rw [exceptIsOk_iff] at this
          exact this
        · intro ts
          rfl
    | str s => exact ih hrest
    | num n => exact ih hrest
    | bool b => exact ih hrest
    | null => exact ih hrest
    | arr l => exact ih hrest

theorem convert_qnap_template_ok (fields : List (String × JVal))
    (h : qnapItemWF fields = true) :
    exceptIsOk (convert_qnap_template fields) = true := by
  unfold convert_qnap_template
  unfold qnapItemWF at h
  rw [Bool.and_eq_true] at h
  obtain ⟨hname, harch⟩ := h
  refine isOk_bind _ _ ?_ ?_
  · cases hn : jLookup "name" fields with
    | none => exact ⟨_, rfl⟩
    | some nv =>
      cases hv : jLookup "version" fields with
      | none => exact ⟨_, rfl⟩
      | some vv =>
        cases nv with
        | str s => exact ⟨_, rfl⟩
        | num n => rw [hn, hv] at hname; simp at hname
        | bool b => rw [hn, hv] at hname; simp at hname
        | null => rw [hn, hv] at hname; simp at hname
        | arr l => rw [hn, hv] at hname; simp at hname
        | obj o => rw [hn, hv] at hname; simp at hname
  · intro t1
    refine isOk_bind _ _ ?_ ?_
    · cases ha : jLookup "arch" fields with
      | none => exact ⟨_, rfl⟩
      | some av =>
        cases av with
        | arr l => rw [ha] at harch; simp at harch
        | obj o => rw [ha] at harch; simp at harch
        | str s => exact ⟨_, rfl⟩
        | num n => exact ⟨_, rfl⟩
        | bool b => exact ⟨_, rfl⟩
        | null => exact ⟨_, rfl⟩
    · intro t2
      rfl

theorem convertQnapList_ok (items : List JVal)
    (h : (items.all fun x => match x with | .obj f => qnapItemWF f | _ => false) = true) :
    exceptIsOk (convertQnapList items) = true := by
  induction items with
  | nil => rfl
  | cons x rest ih =>
    rw [List.all_cons, Bool.and_eq_true] at h
    obtain ⟨hx, hrest⟩ := h
    cases x with
    | obj f =>
      refine isOk_bind _ _ ?_ ?_
      · have := convert_qnap_template_ok f hx
        rw [exceptIsOk_iff] at this
        obtain ⟨t, ht⟩ := this
        refine ⟨.obj t, ?_⟩
        show (convert_qnap_template f >>= fun t => pure (JVal.obj t)) = _
        rw [ht, ok_bind]
        rfl
      · intro t
        refine isOk_bind _ _ ?_ ?_
        · have := ih hrest
          rw [exceptIsOk_iff] at this
          exact this
        · intro ts
          rfl
    | str s => simp at hx
    | num n => simp at hx
    | bool b => simp at hx
    | null => simp at hx
    | arr l => simp at hx

theorem detect_format_arr_ne_qnap_single (items : List JVal) :
    detect_format (.arr items) ≠ "qnap_single" := by
  intro h
  rcases items with _ | ⟨first, rest⟩
  · simp [detect_format] at h
  · cases first with
    | obj ff =>
      dsimp only [detect_format] at h
      split at h
      · simp at h
      · split at h <;> simp at h
    | str s => simp [detect_format] at h
    | num n => simp [detect_format] at h
    | bool b => simp [detect_format] at h
    | null => simp [detect_format] at h
    | arr l => simp [detect_format] at h

theorem detect_format_obj_ne_qnap_array (fields : List (String × JVal)) :
    detect_format (.obj fields) ≠ "qnap_array" := by
  intro h
  dsimp only [detect_format] at h
  split at h
  · simp at h
  · split at h
    · simp at h
    · split at h
      · simp at h
      · split at h <;> simp at h

/-- C6 (amended): conversion fails when the format is unknown, and for
docker_compose documents without a services mapping; the three portainer
formats always convert; docker_compose and QNAP documents convert whenever
the fields the converter manipulates are well-typed (`composeWF`,
`qnapWF`) - without that qualification ill-typed values raise, e.g. a
ports entry whose protocol part cannot be unpacked (see the
counterexample). -/
theorem claim6_conversion_errors (doc : JVal) :
    (detect_format doc = "unknown" → exceptIsOk (convert_to_portainer doc) = false)
    ∧ (detect_format doc = "docker_compose" → composeServicesBad doc = true →
        exceptIsOk (convert_to_portainer doc) = false)
    ∧ ((detect_format doc = "portainer" ∨ detect_format doc = "portainer_single"
        ∨ detect_format doc = "portainer_array") →
        exceptIsOk (convert_to_portainer doc) = true)
    ∧ (detect_format doc = "docker_compose" → composeWF doc = true →
        exceptIsOk (convert_to_portainer doc) = true)
    ∧ ((detect_format doc = "qnap_single" ∨ detect_format doc = "qnap_array") →
        qnapWF doc = true → exceptIsOk (convert_to_portainer doc) = true) := by
  refine ⟨?_, ?_, ?_, ?_, ?_⟩
  · intro h
    simp [convert_to_portainer, h, exceptIsOk]
  · intro h hbad
    have hred : convert_to_portainer doc = convert_compose_to_portainer doc := by
      simp [convert_to_portainer, h]
    rw [hred]
    cases doc with
    | obj fields =>
      rcases hs : jLookup "services" fields with _ | sv
      · simp [convert_compose_to_portainer, hs, exceptIsOk]
      · cases sv with
        | obj services => simp [composeServicesBad, hs] at hbad
        | str s => simp [convert_compose_to_portainer, hs, exceptIsOk]
        | num n => simp [convert_compose_to_portainer, hs, exceptIsOk]
        | bool b => simp [convert_compose_to_portainer, hs, exceptIsOk]
        | null => simp [convert_compose_to_portainer, hs, exceptIsOk]
        | arr l => simp [convert_compose_to_portainer, hs, exceptIsOk]
    | str s => simp [convert_compose_to_portainer, exceptIsOk]
    | num n => simp [convert_compose_to_portainer, exceptIsOk]
    | bool b => simp [convert_compose_to_portainer, exceptIsOk]
    | null => simp [convert_compose_to_portainer, exceptIsOk]
    | arr l => simp [convert_compose_to_portainer, exceptIsOk]
  · intro h
    rcases h with h | h | h <;> simp [convert_to_portainer, h, exceptIsOk]
  · intro h hwf
    have hred : convert_to_portainer doc = convert_compose_to_portainer doc := by
      simp [convert_to_portainer, h]
    rw [hred]
    cases doc with
    | obj fields =>
      rcases hs : jLookup "services" fields with _ | sv
      · simp [composeWF, hs] at hwf
      · cases sv with
        | obj services =>
          have hall : (services.all fun p =>
              match p.2 with | .obj c => serviceWF c | _ => true) = true := by
            simpa [composeWF, hs] using hwf
          have hcc : convert_compose_to_portainer (JVal.obj fields)
              = (convertServices services >>= fun templates =>
                  pure (JVal.obj [("version", JVal.str "2"),
                    ("templates", JVal.arr templates)])) := by
            simp [convert_compose_to_portainer, hs]
          rw [hcc]
          refine isOk_bind _ _ ?_ ?_
          · exact (exceptIsOk_iff _).mp (convertServices_ok services hall)
          · intro ts
            rfl
        | str s => simp [composeWF, hs] at hwf
        | num n => simp [composeWF, hs] at hwf
        | bool b => simp [composeWF, hs] at hwf
        | null => simp [composeWF, hs] at hwf
        | arr l => simp [composeWF, hs] at hwf
    | str s => simp [composeWF] at hwf
    | num n => simp [composeWF] at hwf
    | bool b => simp [composeWF] at hwf
    | null => simp [composeWF] at hwf
    | arr l => simp [composeWF] at hwf
  · intro h hwf
    rcases h with h | h
    · cases doc with
      | obj fields =>
        have hred : convert_to_portainer (JVal.obj fields)
            = (convert_qnap_template fields >>= fun t =>
                pure (JVal.obj [("version", JVal.str "2"),
                  ("templates", JVal.arr [JVal.obj t])])) := by
          simp [convert_to_portainer, h]
        rw [hred]
        refine isOk_bind _ _ ?_ ?_
        · have hitem : qnapItemWF fields = true := by simpa [qnapWF] using hwf
          exact (exceptIsOk_iff _).mp (convert_qnap_template_ok fields hitem)
        · intro t
          rfl
      | arr items => exact absurd h (detect_format_arr_ne_qnap_single items)
      | str s => simp [qnapWF] at hwf
      | num n => simp [qnapWF] at hwf
      | bool b => simp [qnapWF] at hwf
      | null => simp [qnapWF] at hwf
    · cases doc with
      | arr items =>
        have hred : convert_to_portainer (JVal.arr items)
            = (convertQnapList items >>= fun ts =>
                pure (JVal.obj [("version", JVal.str "2"),
                  ("templates", JVal.arr ts)])) := by
          simp [convert_to_portainer, h]
        rw [hred]
        refine isOk_bind _ _ ?_ ?_
        · have hitems : (items.all fun x =>
              match x with | .obj f => qnapItemWF f | _ => false) = true := by
            simpa [qnapWF] using hwf
          exact (exceptIsOk_iff _).mp (convertQnapList_ok items hitems)
        · intro ts
          rfl
      | obj fields => exact absurd h (detect_format_obj_ne_qnap_array fields)
      | str s => simp [qnapWF] at hwf
      | num n => simp [qnapWF] at hwf
      | bool b => simp [qnapWF] at hwf
      | null => simp [qnapWF] at hwf

/-- A Compose document whose detected format is docker_compose and whose
services value is a proper mapping, yet conversion raises: the ports entry
has a protocol part with an extra slash, so the two-way unpack fails. -/
def claim6BadDoc : JVal :=
  .obj [("services", .obj [("a", .obj [("image", .str "i"),
    ("ports", .arr [.str "80:90/tcp/x"])])])]

/-- C6 counterexample: a docker_compose document with a well-formed
services mapping on which convert_to_portainer still raises, refuting
"for every other detected format it returns ... without raising". -/
theorem claim6_counterexample :
    detect_format claim6BadDoc = "docker_compose"
    ∧ composeServicesBad claim6BadDoc = false
    ∧ exceptIsOk (convert_to_portainer claim6BadDoc) = false := by
  refine ⟨rfl, rfl, ?_⟩
  rfl

def claim6GoodDoc : JVal :=
  .obj [("services", .obj [("web", .obj [("image", .str "nginx")])])]

theorem claim6_witness :
    detect_format claim6GoodDoc = "docker_compose"
    ∧ composeWF claim6GoodDoc = true
    ∧ exceptIsOk (convert_to_portainer claim6GoodDoc) = true :=
  ⟨rfl, rfl, (claim6_conversion_errors claim6GoodDoc).2.2.2.1 rfl rfl⟩
